import Mathlib

/-!
Verification of the Klarita reinforcement-learning subsystem
(`klarita_backend/enhanced_rl_handler.py` and
`klarita_backend/nightly_rl_trainer.py`).

Python dictionaries are modelled as insertion-ordered association lists
with string keys; `defaultdict` access (which inserts the default value
on a miss) is modelled by `dgetA`, which returns the looked-up value
together with the possibly-extended list.  Python floats are modelled as
rationals; machine rounding is irrelevant to the claims checked here.
Randomness (`np.random.random`, `np.random.choice`) is modelled by
explicit parameters: the drawn value and the chosen index.  ORM rows
carry exactly the columns models.py maps; Python attribute access and
`hasattr` are modelled against per-class attribute lists, so handler
code that dereferences an unmapped attribute (`models.Task.user_id`,
`session.user_id`, ...) fails with the corresponding `AttributeError`
value exactly where the source raises; fallible functions accordingly
return `Except String`.
-/

namespace Klarita

/-- RL configuration constants (enhanced_rl_handler.py lines 18-23). -/
def LEARNING_RATE : ℚ := 1 / 10

def DISCOUNT_FACTOR : ℚ := 19 / 20

def EPSILON : ℚ := 1 / 10

def STATE_HISTORY_SIZE : Nat := 50

/-! ### Association-list model of Python dicts (insertion order preserved) -/

/-- Dict lookup with default: first entry whose key matches. -/
def lookupD {α : Type} (l : List (String × α)) (k : String) (d : α) : α :=
  match l with
  | [] => d
  | p :: rest => if p.1 == k then p.2 else lookupD rest k d

/-- Dict key-membership test (Python `in`). -/
def hasKeyA {α : Type} (l : List (String × α)) (k : String) : Bool :=
  match l with
  | [] => false
  | p :: rest => p.1 == k || hasKeyA rest k

/-- Dict assignment: overwrite in place if the key is present, else append
(Python dicts keep the original position of an updated key). -/
def setA {α : Type} (l : List (String × α)) (k : String) (v : α) :
    List (String × α) :=
  match l with
  | [] => [(k, v)]
  | p :: rest => if p.1 == k then (k, v) :: rest else p :: setA rest k v

/-- `defaultdict` access: return the stored value, or insert and return the
default when the key is absent.  The second component is the (possibly
extended) dictionary. -/
def dgetA {α : Type} (l : List (String × α)) (k : String) (d : α) :
    α × List (String × α) :=
  match l with
  | [] => (d, [(k, d)])
  | p :: rest =>
    if p.1 == k then (p.2, p :: rest)
    else
      let r := dgetA rest k d
      (r.1, p :: r.2)

theorem lookupD_setA_self {α : Type} (l : List (String × α)) (k : String)
    (v d : α) : lookupD (setA l k v) k d = v := by
  induction l with
  | nil => simp [setA, lookupD]
  | cons p rest ih =>
    by_cases h : p.1 = k
    · simp [setA, lookupD, h]
    · simp [setA, lookupD, h, ih]

theorem lookupD_setA_ne {α : Type} (l : List (String × α)) {k k' : String}
    (v d : α) (h : k' ≠ k) : lookupD (setA l k v) k' d = lookupD l k' d := by
  have hk : ¬ k = k' := fun hh => h hh.symm
  induction l with
  | nil => simp [setA, lookupD, hk]
  | cons p rest ih =>
    by_cases hp : p.1 = k
    · subst hp
      simp [setA, lookupD, hk]
    · simp only [setA, beq_iff_eq, hp, if_false, lookupD]
      by_cases hp' : p.1 = k'
      · simp [hp']
      · simp [hp', ih]

theorem dgetA_fst {α : Type} (l : List (String × α)) (k : String) (d : α) :
    (dgetA l k d).1 = lookupD l k d := by
  induction l with
  | nil => simp [dgetA, lookupD]
  | cons p rest ih =>
    by_cases h : p.1 = k
    · simp [dgetA, lookupD, h]
    · simp [dgetA, lookupD, h, ih]

theorem lookupD_dgetA_self {α : Type} (l : List (String × α)) (k : String)
    (d d' : α) : lookupD (dgetA l k d).2 k d' = lookupD l k d := by
  induction l with
  | nil => simp [dgetA, lookupD]
  | cons p rest ih =>
    by_cases h : p.1 = k
    · simp [dgetA, lookupD, h]
    · simp [dgetA, lookupD, h, ih]

theorem lookupD_dgetA_ne {α : Type} (l : List (String × α)) {k k' : String}
    (d d' : α) (h : k' ≠ k) :
    lookupD (dgetA l k d).2 k' d' = lookupD l k' d' := by
  have hk : ¬ k = k' := fun hh => h hh.symm
  induction l with
  | nil => simp [dgetA, lookupD, hk]
  | cons p rest ih =>
    by_cases hp : p.1 = k
    · subst hp
      simp [dgetA, lookupD, hk]
    · simp only [dgetA, beq_iff_eq, hp, if_false, lookupD]
      by_cases hp' : p.1 = k'
      · simp [hp']
      · simp [hp', ih]

theorem hasKeyA_dgetA {α : Type} (l : List (String × α)) (k : String)
    (d : α) : hasKeyA (dgetA l k d).2 k = true := by
  induction l with
  | nil => simp [dgetA, hasKeyA]
  | cons p rest ih =>
    by_cases h : p.1 = k
    · simp [dgetA, hasKeyA, h]
    · simp [dgetA, hasKeyA, h, ih]

theorem dgetA_present {α : Type} (l : List (String × α)) (k : String)
    (d : α) (h : hasKeyA l k = true) : dgetA l k d = (lookupD l k d, l) := by
  induction l with
  | nil => simp [hasKeyA] at h
  | cons p rest ih =>
    by_cases hp : p.1 = k
    · simp [dgetA, lookupD, hp]
    · simp only [hasKeyA, Bool.or_eq_true, beq_iff_eq, hp, false_or] at h
      simp [dgetA, lookupD, hp, ih h]

theorem hasKeyA_setA_self {α : Type} (l : List (String × α)) (k : String)
    (v : α) : hasKeyA (setA l k v) k = true := by
  induction l with
  | nil => simp [setA, hasKeyA]
  | cons p rest ih =>
    by_cases h : p.1 = k
    · simp [setA, hasKeyA, h]
    · simp [setA, hasKeyA, h, ih]

theorem setA_setA {α : Type} (l : List (String × α)) (k : String) (v w : α) :
    setA (setA l k v) k w = setA l k w := by
  induction l with
  | nil => simp [setA]
  | cons p rest ih =>
    by_cases h : p.1 = k
    · simp [setA, h]
    · simp [setA, h, ih]

/-! ### States and actions (class RLState / class RLAction) -/

/-- `RLState` (enhanced_rl_handler.py lines 25-43). -/
structure RLState where
  user_id : Nat
  time_of_day : Nat
  task_category : String
  session_complexity : String
  user_mood : String
deriving DecidableEq

/-- `RLState.to_key`: the canonical string key of a state. -/
def RLState.to_key (s : RLState) : String :=
  Nat.repr s.user_id ++ "_" ++ Nat.repr s.time_of_day ++ "_" ++
    s.task_category ++ "_" ++ s.session_complexity ++ "_" ++ s.user_mood

/-- `RLAction` (enhanced_rl_handler.py lines 45-61). -/
structure RLAction where
  breakdown_style : String
  task_duration : Nat
  communication_style : String
  task_count : Nat
deriving DecidableEq

/-- `RLAction.to_key`: the canonical string key of an action. -/
def RLAction.to_key (a : RLAction) : String :=
  a.breakdown_style ++ "_" ++ Nat.repr a.task_duration ++ "_" ++
    a.communication_style ++ "_" ++ Nat.repr a.task_count

/-- One record of the bounded action history
(`action_history.append({...})`, lines 88-93). -/
structure HistEntry where
  state : String
  action : String
  reward : ℚ
  timestamp : Int
deriving DecidableEq

/-! ### The Q-table (class QTable) -/

/-- `QTable` (enhanced_rl_handler.py lines 63-67): `q_values` is a
`defaultdict(lambda: defaultdict(float))`, `state_visits` a
`defaultdict(int)`, `action_history` a `deque(maxlen=50)`. -/
structure QTable where
  q_values : List (String × List (String × ℚ))
  state_visits : List (String × Nat)
  action_history : List HistEntry
deriving DecidableEq

/-- A freshly constructed `QTable()`: all containers empty. -/
def QTable.empty : QTable := { q_values := [], state_visits := [], action_history := [] }

/-- Python `max` over an iterable with running first-maximum semantics:
a later element replaces the current best only when strictly greater.
`bestPairFrom c l` is the first maximal (key, value) pair of `c :: l`. -/
def bestPairFrom (cur : String × ℚ) : List (String × ℚ) → String × ℚ
  | [] => cur
  | p :: rest => if cur.2 < p.2 then bestPairFrom p rest else bestPairFrom cur rest

/-- `max(d.values()) if d else 0` over an inner Q-value dict. -/
def dictMaxVal (l : List (String × ℚ)) : ℚ :=
  match l with
  | [] => 0
  | c :: rest => (bestPairFrom c rest).2

/-- `deque(maxlen=50).append`: drop from the left when full. -/
def dequeAppend (l : List HistEntry) (e : HistEntry) : List HistEntry :=
  if l.length < STATE_HISTORY_SIZE then l ++ [e]
  else l.drop (l.length + 1 - STATE_HISTORY_SIZE) ++ [e]

/-- `QTable.get_q_value` (lines 69-70):
`return self.q_values[state.to_key()][action.to_key()]`.
Both subscripts are `defaultdict` accesses, so a missing key is inserted
with its default; the returned pair is (value, table after the call). -/
def QTable.get_q_value (qt : QTable) (state : RLState) (action : RLAction) :
    ℚ × QTable :=
  let r1 := dgetA qt.q_values state.to_key []
  let r2 := dgetA r1.1 action.to_key (0 : ℚ)
  (r2.1, { qt with q_values := setA r1.2 state.to_key r2.2 })

/-- `QTable.update_q_value` (lines 72-93).  The Python function has no
`return` statement, so its value is `None`: the second component of the
result models that returned value (`none`). -/
def QTable.update_q_value (qt : QTable) (state : RLState) (action : RLAction)
    (reward : ℚ) (next_state : Option RLState) (now : Int) :
    QTable × Option ℚ :=
  let state_key := state.to_key
  let action_key := action.to_key
  -- current_q = self.q_values[state_key][action_key]
  let r1 := dgetA qt.q_values state_key []
  let r2 := dgetA r1.1 action_key (0 : ℚ)
  let current_q := r2.1
  let qv1 := setA r1.2 state_key r2.2
  let new_and_qv :=
    match next_state with
    | some ns =>
      -- max_next_q = max(self.q_values[next_state_key].values())
      --              if self.q_values[next_state_key] else 0
      let r3 := dgetA qv1 ns.to_key []
      let max_next_q := dictMaxVal r3.1
      (current_q + LEARNING_RATE * (reward + DISCOUNT_FACTOR * max_next_q - current_q),
        r3.2)
    | none => (current_q + LEARNING_RATE * (reward - current_q), qv1)
  let new_q := new_and_qv.1
  -- self.q_values[state_key][action_key] = new_q
  let qv2 := new_and_qv.2
  let qv3 := setA qv2 state_key (setA (lookupD qv2 state_key []) action_key new_q)
  -- self.state_visits[state_key] += 1
  let rv := dgetA qt.state_visits state_key 0
  let visits := setA rv.2 state_key (rv.1 + 1)
  ({ q_values := qv3, state_visits := visits,
     action_history := dequeAppend qt.action_history
       { state := state_key, action := action_key, reward := reward, timestamp := now } },
   none)

/-- `np.random.choice(possible_actions)`: raises `ValueError` on an empty
list; otherwise returns the element selected by the random draw, which we
model by an explicit index `pick` (taken modulo the length). -/
def npChoice (l : List RLAction) (pick : Nat) : Except String RLAction :=
  match l with
  | [] => Except.error "ValueError: a must be non-empty"
  | x :: xs => Except.ok ((x :: xs).getD (pick % (xs.length + 1)) x)

/-- `QTable.get_best_action` (lines 95-109).  `r` models the value drawn by
`np.random.random()` and `pick` the index drawn by `np.random.choice`. -/
def QTable.get_best_action (qt : QTable) (state : RLState)
    (possible_actions : List RLAction) (r : ℚ) (pick : Nat) :
    Except String RLAction :=
  if r < EPSILON then npChoice possible_actions pick
  else
    -- if state_key in self.q_values and self.q_values[state_key]:
    match lookupD qt.q_values state.to_key [] with
    | [] => npChoice possible_actions pick
    | c :: rest =>
      -- best_action_key = max(keys, key=lambda k: q_values[state_key][k])
      let best_action_key := (bestPairFrom c rest).1
      match possible_actions.find? (fun a => a.to_key == best_action_key) with
      | some a => Except.ok a
      | none => npChoice possible_actions pick

/-! ### The database rows, with the schema models.py actually defines

The RL handler queries the concrete ORM classes `models.Task`,
`models.User` and `models.SessionFeedback`.  models.py maps on `Task`
only `id`, `session_id`, `title`, `description`, `estimated_duration`,
`user_modified_duration`, `status`, `priority` (plus the `session`
relationship) — there is no `user_id`, no `created_at` and no
`completed` — and on `User` only `id`, `email`, `hashed_password`,
`created_at` (plus relationships) — there is no `streak_days`.  Python
attribute access on a name the class does not map raises
`AttributeError`; `hasattr` on it returns False.  We model rows as
structures with exactly the mapped columns, list the attribute names per
class, and model attribute lookup / `hasattr` against those lists, so
that the handler functions below fail exactly where the source does.
Timestamps are integer seconds. -/

/-- `models.Task` (models.py lines 69-88): the mapped columns. -/
structure Task where
  id : Nat
  session_id : Nat
  title : String
  description : String
  estimated_duration : Option Int
  user_modified_duration : Option Int
  status : String
  priority : String
deriving DecidableEq

/-- `models.User` (models.py lines 21-32): the mapped columns. -/
structure User where
  id : Nat
  email : String
  hashed_password : String
  created_at : Int
deriving DecidableEq

/-- `models.SessionFeedback` (models.py lines 136-150). -/
structure SessionFeedback where
  id : Nat
  session_id : Nat
  user_id : Nat
  rating : Int
  comments : String
  created_at : Int
deriving DecidableEq

structure DB where
  tasks : List Task
  users : List User
  session_feedback : List SessionFeedback
deriving DecidableEq

/-- The attribute names present on `models.Task` and its instances
(mapped columns and the relationship, models.py lines 69-88).  Neither
`user_id` nor `created_at` nor `completed` is among them. -/
def taskAttrs : List String :=
  ["id", "session_id", "title", "description", "estimated_duration",
   "user_modified_duration", "status", "priority", "session"]

/-- The attribute names present on `models.User` and its instances
(models.py lines 21-32).  `streak_days` is not among them. -/
def userAttrs : List String :=
  ["id", "email", "hashed_password", "created_at",
   "preferences", "sessions", "gamification", "memories"]

/-- Python `hasattr` on a Task row. -/
def taskHasAttr (name : String) : Bool := taskAttrs.contains name

/-- Python `hasattr` on a User row. -/
def userHasAttr (name : String) : Bool := userAttrs.contains name

/-- The message of the `AttributeError` raised by a class-level access
`models.<cls>.<name>` (as evaluated when a query filter is built). -/
def classAttrError (cls name : String) : String :=
  "AttributeError: type object " ++ cls ++ " has no attribute " ++ name

/-- The message of the `AttributeError` raised by an instance access
`row.<name>`. -/
def rowAttrError (cls name : String) : String :=
  "AttributeError: " ++ cls ++ " object has no attribute " ++ name

/-- Class-level attribute lookup `models.<cls>.<name>`: succeeds exactly
on the attributes the class maps, raises `AttributeError` otherwise. -/
def classAttr (attrs : List String) (cls name : String) : Except String String :=
  if attrs.contains name then Except.ok name
  else Except.error (classAttrError cls name)

/-- Instance attribute lookup `row.<name>`: succeeds exactly on the
attributes the class maps, raises `AttributeError` otherwise. -/
def rowAttr (attrs : List String) (cls name : String) : Except String String :=
  if attrs.contains name then Except.ok name
  else Except.error (rowAttrError cls name)

/-! ### Substring test (Python `needle in hay`) -/

/-- Does `needle` occur as a prefix of `hay`? -/
def matchesAt : List Char → List Char → Bool
  | [], _ => true
  | _ :: _, [] => false
  | c :: cs, h :: hs => c == h && matchesAt cs hs

/-- Does `needle` occur as a contiguous run of `hay`? -/
def occursInChars (needle : List Char) : List Char → Bool
  | [] => needle.isEmpty
  | h :: hs => matchesAt needle (h :: hs) || occursInChars needle hs

/-- Python `needle in hay` on strings. -/
def occursInStr (needle hay : String) : Bool :=
  occursInChars needle.toList hay.toList

/-- Python `str.lower()`: lower-case each character. -/
def toLowerStr (s : String) : String :=
  String.mk (s.data.map Char.toLower)

/-! ### EnhancedRLHandler -/

/-- The handler instance: the Q-table plus the ambient pending-proposal
slots `last_state` / `last_action`, which are dynamic attributes in the
Python source (set by `recommend_action`, probed with `hasattr`, removed
with `delattr`); absence is modelled by `none`. -/
structure EnhancedRLHandler where
  q_table : QTable
  last_state : Option RLState
  last_action : Option RLAction
deriving DecidableEq

/-- Lines 135-143 of `get_current_state`: the keyword scan over the
lower-cased goal, which executes before the failing query below. -/
def infer_task_category (goal : String) : String :=
  if occursInStr "work" (toLowerStr goal) then "work"
  else if occursInStr "study" (toLowerStr goal) then "study"
  else if occursInStr "personal" (toLowerStr goal) then "personal"
  else if occursInStr "exercise" (toLowerStr goal) then "health"
  else "general"

/-- `EnhancedRLHandler.get_current_state` (lines 132-161).  `hour` models
`datetime.now().hour`, `now` the current timestamp.  Lines 133-143 (hour,
category scan) execute first; line 146 then builds the 7-day window
filter, whose first expression evaluates `models.Task.user_id` — an
attribute models.py does not map — so every call raises
`AttributeError` there and no state is ever returned.  The window query,
the completion-ratio / complexity derivation and the `RLState`
construction (lines 148-161) are unreachable dead code (and read the
equally nonexistent `created_at` and `completed` attributes). -/
def get_current_state (_db : DB) (_user_id : Nat) (goal : String)
    (_hour : Nat) (_now : Int) : Except String RLState :=
  let _task_category := infer_task_category goal
  -- line 146: `models.Task.user_id == user_id`
  match classAttr taskAttrs "Task" "user_id" with
  | Except.error e => Except.error e
  | Except.ok _ =>
    -- unreachable: "user_id" is not among taskAttrs
    Except.error "unreachable: models.Task maps no user_id column"

/-- `EnhancedRLHandler.calculate_reward` (lines 189-214).  The session
lookup (line 190) filters on `models.Task.id`, which exists; a missing
row returns 0.0 (line 193) before any other attribute is touched.  When
the row exists, the base reward is computed (line 195), the completion
bonus stays 0.0 because `hasattr(session, 'completed')` is False with the
shipped schema (line 198, short-circuiting before the `session.completed`
read), and line 204 then evaluates `session.user_id` — an attribute
models.Task does not map — raising `AttributeError` for every rating.
The user lookup, streak bonus (whose `hasattr(user, 'streak_days')`
would also be False), penalty and clamp (lines 204-214) are
unreachable. -/
def calculate_reward (db : DB) (session_id : Nat) (rating : Int) :
    Except String ℚ :=
  match db.tasks.find? (fun t => t.id == session_id) with
  | none => Except.ok 0
  | some _session =>
    let _base_reward : ℚ := ((rating - 3 : ℤ) : ℚ) * (1 / 2)
    let _completion_bonus : ℚ := if taskHasAttr "completed" then 1 / 2 else 0
    let _time_bonus : ℚ := 0
    -- line 204: `session.user_id`
    match rowAttr taskAttrs "Task" "user_id" with
    | Except.error e => Except.error e
    | Except.ok _ =>
      -- unreachable: "user_id" is not among taskAttrs
      Except.error "unreachable: models.Task maps no user_id column"

/-- `EnhancedRLHandler.process_feedback` (lines 216-236): a silent no-op
unless both `last_state` and `last_action` are set; otherwise it computes
the reward (line 220; raises when the session row exists) and re-encodes
the current state (line 222; always raises inside `get_current_state`),
so with the shipped schema `update_q_value` (line 224), the snapshot
write and the proposal clearing are never reached — the exception
propagates to the caller with the handler state unchanged.  An
`Except.error` value models that propagating exception. -/
def process_feedback (h : EnhancedRLHandler) (db : DB) (user_id : Nat)
    (session_id : Nat) (rating : Int) (hour : Nat) (now : Int) :
    Except String EnhancedRLHandler :=
  match h.last_state, h.last_action with
  | some last_state, some last_action =>
    match calculate_reward db session_id rating with
    | Except.error e => Except.error e
    | Except.ok reward =>
      match get_current_state db user_id "general" hour now with
      | Except.error e => Except.error e
      | Except.ok current_state =>
        let qt := (h.q_table.update_q_value last_state last_action reward
          (some current_state) now).1
        Except.ok { q_table := qt, last_state := none, last_action := none }
  | _, _ => Except.ok h

/-! ### The durable snapshot (`save_q_table` / `load_q_table`, lines 116-130)

The snapshot is written with `pickle.dump` and read with `pickle.load`.
`pickle` serializes an object graph of basic values, containers and class
instances faithfully (a successful dump reloads to an equal graph), but it
cannot serialize a function object that is a local `lambda`: it raises
`AttributeError: Can't pickle local object ...`.  We model Python values
reachable from the Q-table by `PyVal`, with `localLambda` standing for a
lambda defined inside a function body (such as the
`defaultdict(lambda: defaultdict(float))` factory built in
`QTable.__init__`) and `builtinFn` for a picklable module-level callable
(such as the builtins `int` and `float`).  A dump of a picklable graph is
modelled by the graph itself; an unpicklable graph dumps to `none`
(the exception, which `save_q_table` catches and logs). -/

inductive PyVal where
  | pyNone
  | pyBool (b : Bool)
  | pyInt (n : Int)
  | pyFloat (q : ℚ)
  | pyStr (s : String)
  | localLambda
  | builtinFn (fname : String)
  | pyList (items : List PyVal)
  | pyDict (entries : List (String × PyVal))
  | pyDictDefault (factory : PyVal) (entries : List (String × PyVal))
  | pyObj (cls : String) (fields : List (String × PyVal))

mutual

def picklable : PyVal → Bool
  | .pyNone => true
  | .pyBool _ => true
  | .pyInt _ => true
  | .pyFloat _ => true
  | .pyStr _ => true
  | .localLambda => false
  | .builtinFn _ => true
  | .pyList items => picklableList items
  | .pyDict entries => picklableEntries entries
  | .pyDictDefault factory entries => picklable factory && picklableEntries entries
  | .pyObj _ fields => picklableEntries fields

def picklableList : List PyVal → Bool
  | [] => true
  | v :: vs => picklable v && picklableList vs

def picklableEntries : List (String × PyVal) → Bool
  | [] => true
  | p :: es => picklable p.2 && picklableEntries es

end

/-- `pickle.dump`: succeeds exactly on picklable graphs, and a successful
dump round-trips to the same graph, so the snapshot is modelled by the
graph itself. -/
def pickleDump (v : PyVal) : Option PyVal :=
  if picklable v then some v else none

/-- The Python object graph of a `QTable` instance as pickled: its
`__dict__` holds the outer `defaultdict` whose default factory is the
local lambda from `QTable.__init__`, the `defaultdict(int)` of visit
counts, and the history deque of dict records with `datetime` stamps. -/
def innerRepr (l : List (String × ℚ)) : PyVal :=
  PyVal.pyDictDefault (PyVal.builtinFn "float") (l.map (fun p => (p.1, PyVal.pyFloat p.2)))

def histRepr (e : HistEntry) : PyVal :=
  PyVal.pyDict [("state", PyVal.pyStr e.state), ("action", PyVal.pyStr e.action),
    ("reward", PyVal.pyFloat e.reward),
    ("timestamp", PyVal.pyObj "datetime" [("ts", PyVal.pyInt e.timestamp)])]

def QTable.pyRepr (qt : QTable) : PyVal :=
  PyVal.pyObj "QTable"
    [("q_values", PyVal.pyDictDefault PyVal.localLambda
        (qt.q_values.map (fun p => (p.1, innerRepr p.2)))),
     ("state_visits", PyVal.pyDictDefault (PyVal.builtinFn "int")
        (qt.state_visits.map (fun p => (p.1, PyVal.pyInt (p.2 : Int))))),
     ("action_history", PyVal.pyList (qt.action_history.map histRepr))]

/-- Parse an inner Q-value dict back from a snapshot graph. -/
def parseInnerQ : List (String × PyVal) → Option (List (String × ℚ))
  | [] => some []
  | (k, PyVal.pyFloat q) :: rest => (parseInnerQ rest).map (fun r => (k, q) :: r)
  | _ => none

def parseOuterQ : List (String × PyVal) → Option (List (String × List (String × ℚ)))
  | [] => some []
  | (k, PyVal.pyDictDefault _ es) :: rest =>
    match parseInnerQ es with
    | some inner => (parseOuterQ rest).map (fun r => (k, inner) :: r)
    | none => none
  | _ => none

def parseVisits : List (String × PyVal) → Option (List (String × Nat))
  | [] => some []
  | (k, PyVal.pyInt n) :: rest =>
    if n < 0 then none else (parseVisits rest).map (fun r => (k, n.toNat) :: r)
  | _ => none

def parseHist : List PyVal → Option (List HistEntry)
  | [] => some []
  | PyVal.pyDict [("state", PyVal.pyStr s), ("action", PyVal.pyStr a),
      ("reward", PyVal.pyFloat q),
      ("timestamp", PyVal.pyObj "datetime" [("ts", PyVal.pyInt t)])] :: rest =>
    (parseHist rest).map (fun r => { state := s, action := a, reward := q, timestamp := t } :: r)
  | _ => none

def QTable.fromPyRepr : PyVal → Option QTable
  | PyVal.pyObj "QTable"
      [("q_values", PyVal.pyDictDefault _ qes),
       ("state_visits", PyVal.pyDictDefault _ ves),
       ("action_history", PyVal.pyList hes)] =>
    match parseOuterQ qes, parseVisits ves, parseHist hes with
    | some qv, some vs, some hist =>
      some { q_values := qv, state_visits := vs, action_history := hist }
    | _, _, _ => none
  | _ => none

/-- `EnhancedRLHandler.save_q_table` (lines 116-121): pickles the Q-table;
any exception is caught and logged, leaving no valid snapshot (`none`). -/
def save_q_table (qt : QTable) : Option PyVal :=
  pickleDump qt.pyRepr

/-- `EnhancedRLHandler.load_q_table` (lines 123-130): with no valid
snapshot (missing or unreadable file) the handler keeps / resets to a
fresh empty `QTable()`; otherwise the pickled graph is rebuilt. -/
def load_q_table (snapshot : Option PyVal) : QTable :=
  match snapshot with
  | none => QTable.empty
  | some v =>
    match QTable.fromPyRepr v with
    | some qt => qt
    | none => QTable.empty

/-! ### The nightly batch trainer (nightly_rl_trainer.py) -/

/-- Per-user statistics accumulated by `train_user_rl_model`
(nightly_rl_trainer.py lines 91-97, 113-123). -/
structure TrainingStats where
  user_id : Nat
  feedback_processed : Nat
  q_value_updates : Nat
  average_reward : ℚ
  errors : Nat
deriving DecidableEq

/-- `train_user_rl_model` (nightly_rl_trainer.py lines 78-133): replays the
user's feedback rows from the last 24 hours through
`enhanced_rl_handler.rl_handler.process_feedback`, then recomputes the
reward for the statistics; a row whose processing raises is caught by the
per-row `try/except` (lines 101-119) and tallied as an error instead (no
counter increment, handler state as left by the raise).  Rows that pass
are counted as one processed feedback AND one Q-value update each,
whether or not `process_feedback` actually updated anything.  The final
`save_q_table()` call never raises (it catches internally), so it adds no
error. -/
def train_user_rl_model (h : EnhancedRLHandler) (db : DB) (user_id : Nat)
    (hour : Nat) (now : Int) : EnhancedRLHandler × TrainingStats :=
  let recent_feedback := db.session_feedback.filter
    (fun f => f.user_id == user_id && decide (f.created_at ≥ now - 86400))
  let res := recent_feedback.foldl
    (fun (acc : EnhancedRLHandler × Nat × ℚ × Nat) fb =>
      match process_feedback acc.1 db user_id fb.session_id fb.rating hour now with
      | Except.error _ => (acc.1, acc.2.1, acc.2.2.1, acc.2.2.2 + 1)
      | Except.ok h1 =>
        match calculate_reward db fb.session_id fb.rating with
        | Except.error _ => (h1, acc.2.1, acc.2.2.1, acc.2.2.2 + 1)
        | Except.ok reward => (h1, acc.2.1 + 1, acc.2.2.1 + reward, acc.2.2.2))
    (h, 0, 0, 0)
  let average := if res.2.1 > 0 then res.2.2.1 / (res.2.1 : ℚ) else 0
  (res.1,
   { user_id := user_id, feedback_processed := res.2.1, q_value_updates := res.2.1,
     average_reward := average, errors := res.2.2.2 })

/-! ### Concrete fixtures used by witnesses and counterexamples -/

def sWork : RLState :=
  { user_id := 1, time_of_day := 10, task_category := "work",
    session_complexity := "medium", user_mood := "neutral" }

def sGen : RLState :=
  { user_id := 2, time_of_day := 9, task_category := "general",
    session_complexity := "medium", user_mood := "neutral" }

def aDetailed : RLAction :=
  { breakdown_style := "detailed", task_duration := 25,
    communication_style := "encouraging", task_count := 5 }

def aConcise : RLAction :=
  { breakdown_style := "concise", task_duration := 15,
    communication_style := "direct", task_count := 3 }

/-- A Task row with id 1, carrying exactly the columns models.py maps. -/
def taskRow1 : Task :=
  { id := 1, session_id := 1, title := "draft report", description := "",
    estimated_duration := some 25, user_modified_duration := none,
    status := "pending", priority := "medium" }

/-- A database in which the session row with id 1 exists. -/
def dbSession1 : DB :=
  { tasks := [taskRow1], users := [], session_feedback := [] }

def dbEmpty : DB := { tasks := [], users := [], session_feedback := [] }

/-- Q-table holding a single negative entry under `sWork`, keyed by
`aConcise` (used to exhibit the `next_state == state` corner of
`update_q_value`). -/
def qtOneNeg : QTable :=
  { q_values := [(sWork.to_key, [(aConcise.to_key, -1)])],
    state_visits := [], action_history := [] }

/-- Q-table holding a tie: both `aConcise` and `aDetailed` have Q-value 1
under `sGen`, with `aConcise` inserted first. -/
def qtTie : QTable :=
  { q_values := [(sGen.to_key, [(aConcise.to_key, 1), (aDetailed.to_key, 1)])],
    state_visits := [], action_history := [] }

/-- A fresh handler, as in a newly started nightly-trainer process:
no pending proposal. -/
def hFresh : EnhancedRLHandler :=
  { q_table := QTable.empty, last_state := none, last_action := none }

/-- A database holding exactly one feedback row for user 7 (session 42,
rating 5, timestamp 0) and no task rows. -/
def dbOneFeedback : DB :=
  { tasks := [], users := [],
    session_feedback :=
      [{ id := 1, session_id := 42, user_id := 7, rating := 5,
         comments := "", created_at := 0 }] }

/-! ### Helper lemmas about `bestPairFrom`, `dictMaxVal` and `update_q_value` -/

theorem bestPairFrom_mem (c : String × ℚ) (l : List (String × ℚ)) :
    bestPairFrom c l ∈ c :: l := by
  induction l generalizing c with
  | nil => simp [bestPairFrom]
  | cons p rest ih =>
    by_cases h : c.2 < p.2
    · simp only [bestPairFrom, h, if_true]
      rcases List.mem_cons.mp (ih p) with h1 | h1
      · simp [h1]
      · simp [List.mem_cons, Or.inr (Or.inr h1)]
    · simp only [bestPairFrom, h, if_false]
      rcases List.mem_cons.mp (ih c) with h1 | h1
      · simp [h1]
      · simp [List.mem_cons, Or.inr (Or.inr h1)]

theorem bestPairFrom_le (c : String × ℚ) (l : List (String × ℚ)) :
    ∀ p ∈ c :: l, p.2 ≤ (bestPairFrom c l).2 := by
  induction l generalizing c with
  | nil =>
    intro p hp
    rcases List.mem_cons.mp hp with h1 | h1
    · simp [h1, bestPairFrom]
    · simp at h1
  | cons q rest ih =>
    intro p hp
    by_cases h : c.2 < q.2
    · simp only [bestPairFrom, h, if_true]
      rcases List.mem_cons.mp hp with h1 | h1
      · exact h1 ▸ le_trans (le_of_lt h) (ih q q (List.mem_cons_self q rest))
      · exact ih q p h1
    · simp only [bestPairFrom, h, if_false]
      rcases List.mem_cons.mp hp with h1 | h1
      · exact ih c p (h1 ▸ List.mem_cons_self c rest)
      · rcases List.mem_cons.mp h1 with h2 | h2
        · exact h2 ▸ le_trans (le_of_not_lt h) (ih c c (List.mem_cons_self c rest))
        · exact ih c p (List.mem_cons.mpr (Or.inr h2))

theorem dictMaxVal_le (l : List (String × ℚ)) :
    ∀ p ∈ l, p.2 ≤ dictMaxVal l := by
  intro p hp
  match l, hp with
  | c :: rest, hp => exact bestPairFrom_le c rest p hp

/-- The returned value of `update_q_value` is always `None`. -/
theorem update_q_value_ret (qt : QTable) (s : RLState) (a : RLAction)
    (reward : ℚ) (ns : Option RLState) (now : Int) :
    (qt.update_q_value s a reward ns now).2 = none := rfl

/-- `update_q_value` increments the visit counter of `state` by exactly 1. -/
theorem update_q_value_visits (qt : QTable) (s : RLState) (a : RLAction)
    (reward : ℚ) (ns : Option RLState) (now : Int) :
    lookupD (qt.update_q_value s a reward ns now).1.state_visits s.to_key 0
      = lookupD qt.state_visits s.to_key 0 + 1 := by
  simp only [QTable.update_q_value]
  rw [lookupD_setA_self, dgetA_fst]

/-- `update_q_value` with no successor state stores
`current + α * (reward - current)`. -/
theorem update_q_value_none_val (qt : QTable) (s : RLState) (a : RLAction)
    (reward : ℚ) (now : Int) :
    lookupD (lookupD (qt.update_q_value s a reward none now).1.q_values
        s.to_key []) a.to_key 0
      = lookupD (lookupD qt.q_values s.to_key []) a.to_key 0
        + LEARNING_RATE * (reward - lookupD (lookupD qt.q_values s.to_key []) a.to_key 0) := by
  simp only [QTable.update_q_value]
  rw [lookupD_setA_self, lookupD_setA_self, dgetA_fst, dgetA_fst]

/-- `update_q_value` with a successor state whose key differs from the
updated state's key stores
`current + α * (reward + γ * max_next - current)` where `max_next` is the
maximum previously stored Q-value over the successor's actions (0 when
there are none). -/
theorem update_q_value_some_val (qt : QTable) (s : RLState) (a : RLAction)
    (reward : ℚ) (ns : RLState) (now : Int) (hne : ns.to_key ≠ s.to_key) :
    lookupD (lookupD (qt.update_q_value s a reward (some ns) now).1.q_values
        s.to_key []) a.to_key 0
      = lookupD (lookupD qt.q_values s.to_key []) a.to_key 0
        + LEARNING_RATE * (reward
            + DISCOUNT_FACTOR * dictMaxVal (lookupD qt.q_values ns.to_key [])
            - lookupD (lookupD qt.q_values s.to_key []) a.to_key 0) := by
  simp only [QTable.update_q_value]
  rw [lookupD_setA_self, lookupD_setA_self, dgetA_fst, dgetA_fst, dgetA_fst,
    lookupD_setA_ne _ _ _ hne, lookupD_dgetA_ne _ _ _ hne]

/-! ### Claim theorems -/

/-- C1 (amended): for every state, action, reward and optional next_state,
`update_q_value` sets the stored value for (state, action) to
`current + 0.1 * (reward + 0.95 * max_next - current)` when a next_state
with a key distinct from state's is supplied — `max_next` being the
maximum stored Q-value over next_state's actions, or 0.0 if none exist —
and to `current + 0.1 * (reward - current)` when no next_state is
supplied; it increments the visit counter for state by exactly 1.  It
returns `None`, not the new value; and when next_state aliases state, the
defaultdict read of the missing (state, action) entry first inserts a 0.0
entry that participates in `max_next` (see the counterexample). -/
theorem C1_update_q_value_td_rule (qt : QTable) (s : RLState) (a : RLAction)
    (reward : ℚ) (now : Int) :
    (lookupD (lookupD (qt.update_q_value s a reward none now).1.q_values
        s.to_key []) a.to_key 0
      = lookupD (lookupD qt.q_values s.to_key []) a.to_key 0
        + LEARNING_RATE * (reward - lookupD (lookupD qt.q_values s.to_key []) a.to_key 0))
    ∧ (∀ ns : RLState, ns.to_key ≠ s.to_key →
        lookupD (lookupD (qt.update_q_value s a reward (some ns) now).1.q_values
            s.to_key []) a.to_key 0
          = lookupD (lookupD qt.q_values s.to_key []) a.to_key 0
            + LEARNING_RATE * (reward
                + DISCOUNT_FACTOR * dictMaxVal (lookupD qt.q_values ns.to_key [])
                - lookupD (lookupD qt.q_values s.to_key []) a.to_key 0)
          ∧ (∀ p ∈ lookupD qt.q_values ns.to_key [],
              p.2 ≤ dictMaxVal (lookupD qt.q_values ns.to_key []))
          ∧ (lookupD qt.q_values ns.to_key [] = [] →
              dictMaxVal (lookupD qt.q_values ns.to_key []) = 0))
    ∧ (∀ ns : Option RLState,
        lookupD (qt.update_q_value s a reward ns now).1.state_visits s.to_key 0
          = lookupD qt.state_visits s.to_key 0 + 1)
    ∧ (∀ ns : Option RLState, (qt.update_q_value s a reward ns now).2 = none) := by
  refine ⟨update_q_value_none_val qt s a reward now, ?_, ?_, ?_⟩
  · intro ns hne
    refine ⟨update_q_value_some_val qt s a reward ns now hne,
      dictMaxVal_le (lookupD qt.q_values ns.to_key []), ?_⟩
    intro hempty
    rw [hempty]
    rfl
  · intro ns
    exact update_q_value_visits qt s a reward ns now
  · intro ns
    exact update_q_value_ret qt s a reward ns now

/-- C1 counterexample: start from a table whose only entry under `sWork`
is `aConcise ↦ -1`, and update (`sWork`, `aDetailed`) with reward 0 and
`next_state = sWork`.  The claim predicts a new value of
`0 + 0.1 * (0 + 0.95 * (-1) - 0) = -19/200` (the maximum *stored* Q-value
over next_state's actions is -1) and that this value is returned.  The
code stores `0` — the defaultdict read of the missing (state, action)
entry inserted a 0.0 that wins the max — and returns `None`. -/
theorem C1_counterexample :
    lookupD (lookupD (qtOneNeg.update_q_value sWork aDetailed 0 (some sWork) 0).1.q_values
        sWork.to_key []) aDetailed.to_key 0 = 0
    ∧ (qtOneNeg.update_q_value sWork aDetailed 0 (some sWork) 0).2 = none
    ∧ lookupD (lookupD qtOneNeg.q_values sWork.to_key []) aDetailed.to_key 0
        + LEARNING_RATE * ((0:ℚ)
            + DISCOUNT_FACTOR * dictMaxVal (lookupD qtOneNeg.q_values sWork.to_key [])
            - lookupD (lookupD qtOneNeg.q_values sWork.to_key []) aDetailed.to_key 0)
        = -19/200
    ∧ ((0:ℚ) ≠ -19/200) := by
  have hne : (aConcise.to_key == aDetailed.to_key) = false := by decide
  refine ⟨?_, rfl, ?_, by norm_num⟩
  · simp only [QTable.update_q_value, qtOneNeg, dgetA, setA, lookupD, dictMaxVal,
      bestPairFrom, beq_self_eq_true, if_true, hne, Bool.false_eq_true, if_false]
    norm_num [LEARNING_RATE, DISCOUNT_FACTOR]
  · simp only [qtOneNeg, lookupD, dictMaxVal, bestPairFrom, beq_self_eq_true, if_true,
      hne, Bool.false_eq_true, if_false]
    norm_num [LEARNING_RATE, DISCOUNT_FACTOR]

/-- C1 witness: the amended theorem applied at a fresh table, state
`sWork`, action `aDetailed`, reward 1, and successor `sGen`. -/
theorem C1_witness :
    lookupD (lookupD (QTable.empty.update_q_value sWork aDetailed 1 none 0).1.q_values
        sWork.to_key []) aDetailed.to_key 0 = 1/10
    ∧ lookupD (lookupD (QTable.empty.update_q_value sWork aDetailed 1 (some sGen) 0).1.q_values
        sWork.to_key []) aDetailed.to_key 0 = 1/10
    ∧ lookupD (QTable.empty.update_q_value sWork aDetailed 1 (some sGen) 0).1.state_visits
        sWork.to_key 0 = 1
    ∧ (QTable.empty.update_q_value sWork aDetailed 1 (some sGen) 0).2 = none := by
  obtain ⟨h1, h2, h3, h4⟩ := C1_update_q_value_td_rule QTable.empty sWork aDetailed 1 0
  obtain ⟨h2a, -, -⟩ := h2 sGen (by decide)
  refine ⟨?_, ?_, ?_, h4 (some sGen)⟩
  · rw [h1]
    norm_num [QTable.empty, lookupD, LEARNING_RATE]
  · rw [h2a]
    norm_num [QTable.empty, lookupD, dictMaxVal, LEARNING_RATE, DISCOUNT_FACTOR]
  · rw [h3 (some sGen)]
    norm_num [QTable.empty, lookupD]

/-- C3 (amended): `get_q_value` on any (state, action) pair returns the
stored value (0.0 when absent) and never raises; it leaves the visit
counters and history untouched and repeated calls return the same value
and the same table; but on an absent pair the defaultdict access inserts
a 0.0 entry for that pair, so the q_values mapping itself is mutated (see
the counterexample). -/
theorem C3_get_q_value_behavior (qt : QTable) (s : RLState) (a : RLAction) :
    (qt.get_q_value s a).1 = lookupD (lookupD qt.q_values s.to_key []) a.to_key 0
    ∧ (qt.get_q_value s a).2.state_visits = qt.state_visits
    ∧ (qt.get_q_value s a).2.action_history = qt.action_history
    ∧ (qt.get_q_value s a).2.get_q_value s a
        = ((qt.get_q_value s a).1, (qt.get_q_value s a).2) := by
  refine ⟨by simp only [QTable.get_q_value]; rw [dgetA_fst, dgetA_fst], rfl, rfl, ?_⟩
  simp only [QTable.get_q_value]
  have houter : hasKeyA (setA (dgetA qt.q_values s.to_key []).2 s.to_key
      (dgetA (dgetA qt.q_values s.to_key []).1 a.to_key 0).2) s.to_key = true :=
    hasKeyA_setA_self _ _ _
  rw [dgetA_present _ _ _ houter, lookupD_setA_self]
  have hinner : hasKeyA (dgetA (dgetA qt.q_values s.to_key []).1 a.to_key 0).2
      a.to_key = true := hasKeyA_dgetA _ _ _
  rw [dgetA_present _ _ _ hinner, lookupD_dgetA_self, setA_setA, dgetA_fst]
  simp [dgetA_fst]

/-- C3 counterexample: `get_q_value` on a pair absent from an empty table
returns 0.0 but does not leave the store unchanged — the pair is inserted
with value 0.0. -/
theorem C3_counterexample :
    (QTable.empty.get_q_value sGen aConcise).2 ≠ QTable.empty
    ∧ (QTable.empty.get_q_value sGen aConcise).1 = 0 := by
  exact ⟨by decide, by decide⟩

/-! ### Snapshot lemmas -/

theorem parseInnerQ_map (l : List (String × ℚ)) :
    parseInnerQ (l.map (fun p => (p.1, PyVal.pyFloat p.2))) = some l := by
  induction l with
  | nil => rfl
  | cons p rest ih => simp [parseInnerQ, ih]

theorem parseOuterQ_map (l : List (String × List (String × ℚ))) :
    parseOuterQ (l.map (fun p => (p.1, innerRepr p.2))) = some l := by
  induction l with
  | nil => rfl
  | cons p rest ih =>
    simp only [innerRepr] at ih
    simp [parseOuterQ, innerRepr, parseInnerQ_map, ih]

theorem parseVisits_map (l : List (String × Nat)) :
    parseVisits (l.map (fun p => (p.1, PyVal.pyInt (p.2 : Int)))) = some l := by
  induction l with
  | nil => rfl
  | cons p rest ih =>
    simp [parseVisits, ih, Int.not_lt.mpr (Int.natCast_nonneg p.2)]

theorem parseHist_map (l : List HistEntry) :
    parseHist (l.map histRepr) = some l := by
  induction l with
  | nil => rfl
  | cons e rest ih => simp [parseHist, histRepr, ih]

/-- Had `pickle.dump` succeeded, the snapshot graph would rebuild the very
same table — the round-trip failure proved in the C2 theorem is caused
solely by the unpicklable lambda factory, not by the graph encoding. -/
theorem fromPyRepr_pyRepr (qt : QTable) :
    QTable.fromPyRepr qt.pyRepr = some qt := by
  simp [QTable.fromPyRepr, QTable.pyRepr, parseOuterQ_map, parseVisits_map, parseHist_map]

theorem save_q_table_none (qt : QTable) : save_q_table qt = none := by
  simp [save_q_table, pickleDump, QTable.pyRepr, picklable, picklableEntries]

/-- C2: the durable snapshot never round-trips.  `QTable.__init__` builds
`q_values = defaultdict(lambda: defaultdict(float))`; the local lambda
default factory cannot be pickled, so `pickle.dump` raises inside
`save_q_table` (caught and logged), no valid snapshot is ever produced,
and a fresh process reloads an empty store — every stored entry is lost.
The second half of the claim (no snapshot ⇒ empty store) does hold. -/
theorem C2_snapshot_roundtrip_fails :
    (∀ qt : QTable, save_q_table qt = none
      ∧ load_q_table (save_q_table qt) = QTable.empty)
    ∧ load_q_table none = QTable.empty
    ∧ save_q_table qtOneNeg = none
    ∧ qtOneNeg ≠ QTable.empty := by
  refine ⟨fun qt => ⟨save_q_table_none qt, ?_⟩, rfl, save_q_table_none qtOneNeg, by decide⟩
  rw [save_q_table_none qt]
  rfl

/-- C4: in a nightly-trainer process no recommendation is ever issued, so
the shared handler has no pending proposal; `train_user_rl_model` replays
the user's feedback row through `process_feedback`, which silently
no-ops — the handler (Q-values and visit counters included) is returned
unchanged — while the statistics nevertheless report one processed
feedback row and one Q-value update. -/
theorem C4_nightly_trainer_performs_no_update :
    (train_user_rl_model hFresh dbOneFeedback 7 10 0).1 = hFresh
    ∧ (train_user_rl_model hFresh dbOneFeedback 7 10 0).2.feedback_processed = 1
    ∧ (train_user_rl_model hFresh dbOneFeedback 7 10 0).2.q_value_updates = 1
    ∧ hFresh.last_state = none ∧ hFresh.last_action = none := by
  exact ⟨by decide, by decide, by decide, rfl, rfl⟩

/-- C5: with the shipped models.py schema the reward function can never
return the claimed values.  `hasattr(session, 'completed')` and
`hasattr(user, 'streak_days')` are always False (models.Task maps no
`completed`, models.User no `streak_days`), so the completion and streak
bonuses are unreachable; and whenever the session row exists — the
scenario the claim quantifies over — the computation raises
`AttributeError` at `session.user_id` for every rating, returning no
value at all. -/
theorem C5_calculate_reward_raises :
    (∀ rating : Int, calculate_reward dbSession1 1 rating
        = Except.error (rowAttrError "Task" "user_id"))
    ∧ taskHasAttr "completed" = false
    ∧ userHasAttr "streak_days" = false :=
  ⟨fun _rating => rfl, rfl, rfl⟩

/-- The spec's description of category inference: scan fixed keyword lists
in priority order work > study > personal > health (keyword "exercise"),
first match wins, no match ⇒ `general`. -/
def specKeywordPriority : List (String × String) :=
  [("work", "work"), ("study", "study"), ("personal", "personal"), ("exercise", "health")]

def specCategoryScan (goal : String) : String :=
  match specKeywordPriority.find? (fun p => occursInStr p.1 (toLowerStr goal)) with
  | some p => p.2
  | none => "general"

/-- A handler carrying a pending proposal (`sWork`, `aDetailed`). -/
def hPending : EnhancedRLHandler :=
  { q_table := QTable.empty, last_state := some sWork, last_action := some aDetailed }

/-- C6 (amended): when the exploration branch is not taken, and the state
has stored Q entries, `get_best_action` computes the stored action key
with the highest Q-value over *all* entries recorded for the state (ties
broken by insertion order in the store, not by candidate order) and
returns the first candidate whose key equals it, falling back to a
uniformly random candidate when no candidate matches; when the state has
no recorded entries it returns a uniformly random candidate. -/
theorem C6_get_best_action_exploit (qt : QTable) (s : RLState)
    (cands : List RLAction) (r : ℚ) (pick : Nat) (hexp : ¬ r < EPSILON) :
    (lookupD qt.q_values s.to_key [] = [] →
      qt.get_best_action s cands r pick = npChoice cands pick)
    ∧ (∀ (c : String × ℚ) (rest : List (String × ℚ)),
        lookupD qt.q_values s.to_key [] = c :: rest →
        (∀ p ∈ c :: rest, p.2 ≤ (bestPairFrom c rest).2)
        ∧ bestPairFrom c rest ∈ c :: rest
        ∧ qt.get_best_action s cands r pick
            = (match cands.find? (fun a => a.to_key == (bestPairFrom c rest).1) with
               | some a => Except.ok a
               | none => npChoice cands pick)) := by
  constructor
  · intro hempty
    unfold QTable.get_best_action
    rw [if_neg hexp, hempty]
  · intro c rest hcons
    refine ⟨bestPairFrom_le c rest, bestPairFrom_mem c rest, ?_⟩
    unfold QTable.get_best_action
    rw [if_neg hexp, hcons]

/-- C6 counterexample: under `sGen` the store holds the tie
`aConcise ↦ 1` (inserted first), `aDetailed ↦ 1`; the candidate list is
`[aDetailed, aConcise]`.  The claim's tie-break (first-encountered in
candidate order) demands `aDetailed`; the code returns `aConcise`,
because `max` over the store's keys keeps the first stored maximum. -/
theorem C6_counterexample :
    qtTie.get_best_action sGen [aDetailed, aConcise] (1/2) 0 = Except.ok aConcise
    ∧ lookupD (lookupD qtTie.q_values sGen.to_key []) aDetailed.to_key 0
        = lookupD (lookupD qtTie.q_values sGen.to_key []) aConcise.to_key 0
    ∧ aDetailed ≠ aConcise := by
  refine ⟨?_, by decide, by decide⟩
  have h1 : ((1:ℚ)/2 < EPSILON) = False := by norm_num [EPSILON]
  have h2 : (aDetailed.to_key == aConcise.to_key) = false := by decide
  have h3 : ((1:ℚ) < 1) = False := by norm_num
  simp only [QTable.get_best_action, qtTie, lookupD, bestPairFrom, beq_self_eq_true,
    if_true, h1, h3, if_false, List.find?, h2]

/-- C6 witness: the theorem applied to the tied store, with the
exploration draw 1/2 ≥ ε. -/
theorem C6_witness :
    qtTie.get_best_action sGen [aDetailed, aConcise] (1/2) 0
      = (match [aDetailed, aConcise].find?
          (fun a => a.to_key
            == (bestPairFrom (aConcise.to_key, (1:ℚ)) [(aDetailed.to_key, 1)]).1) with
         | some a => Except.ok a
         | none => npChoice [aDetailed, aConcise] 0)
    ∧ bestPairFrom (aConcise.to_key, (1:ℚ)) [(aDetailed.to_key, 1)]
        ∈ (aConcise.to_key, (1:ℚ)) :: [(aDetailed.to_key, 1)] := by
  obtain ⟨-, h2⟩ := C6_get_best_action_exploit qtTie sGen [aDetailed, aConcise] (1/2) 0
    (by norm_num [EPSILON])
  obtain ⟨-, hmem, heq⟩ := h2 (aConcise.to_key, (1:ℚ)) [(aDetailed.to_key, 1)] rfl
  exact ⟨heq, hmem⟩

/-- C7: when no pending proposal is set (either ambient attribute is
absent), `process_feedback` is a silent no-op: it returns normally
(`Except.ok`, no exception) with the handler unchanged — same Q-values,
same visit counters, same history — and performs no update. -/
theorem C7_process_feedback_noop (h : EnhancedRLHandler) (db : DB)
    (user_id session_id : Nat) (rating : Int) (hour : Nat) (now : Int)
    (hnone : h.last_state = none ∨ h.last_action = none) :
    process_feedback h db user_id session_id rating hour now = Except.ok h := by
  rcases hnone with h1 | h1
  · unfold process_feedback
    rw [h1]
  · unfold process_feedback
    rw [h1]
    cases h2 : h.last_state <;> rfl

/-- C7 witness: a fresh handler ignores a feedback event. -/
theorem C7_witness :
    (hFresh.last_state = none ∨ hFresh.last_action = none)
    ∧ process_feedback hFresh dbOneFeedback 7 42 5 10 0 = Except.ok hFresh :=
  ⟨Or.inl rfl, C7_process_feedback_noop hFresh dbOneFeedback 7 42 5 10 0 (Or.inl rfl)⟩

/-- C8 (amended): the selector applied to an empty candidate list always
fails (every branch ends in `np.random.choice([])`, which raises
`ValueError`), and the error propagates to the caller; the reward
function, however, performs no rating validation: with no matching
session row it returns 0.0 for every rating — also one outside [1,5] —
and with a matching session row it raises the schema `AttributeError`
for every rating alike, so no failure is ever caused by the rating. -/
theorem C8_error_handling :
    (∀ (qt : QTable) (s : RLState) (r : ℚ) (pick : Nat),
      qt.get_best_action s [] r pick
        = Except.error "ValueError: a must be non-empty")
    ∧ (∀ rating : Int, calculate_reward dbEmpty 42 rating = Except.ok 0)
    ∧ (∀ rating : Int, calculate_reward dbSession1 1 rating
        = Except.error (rowAttrError "Task" "user_id")) := by
  refine ⟨?_, fun _rating => rfl, fun _rating => rfl⟩
  intro qt s r pick
  unfold QTable.get_best_action
  split
  · rfl
  · cases hl : lookupD qt.q_values s.to_key [] with
    | nil => rfl
    | cons c rest => rfl

/-- C8 counterexample: rating 10 lies outside [1,5], yet
`calculate_reward` does not fail with an invalid-argument error — with no
matching session row it returns 0.0 normally, exactly as it does for an
in-range rating. -/
theorem C8_counterexample :
    calculate_reward dbEmpty 1 10 = Except.ok 0
    ∧ ¬ ((1:ℤ) ≤ 10 ∧ (10:ℤ) ≤ 5) :=
  ⟨rfl, by decide⟩

/-- C9: state encoding is not total — with the shipped models.py schema
`get_current_state` raises `AttributeError` on every call: line 146
evaluates `models.Task.user_id`, an attribute the Task class does not
map, before any category or complexity can be returned, so the 0.7
completion-ratio / "medium" defaults are never produced either.  The
keyword scan of lines 135-143, which does execute (and is then discarded
by the raise), matches the claimed priority scan exactly and always
yields one of the five categories. -/
theorem C9_get_current_state_raises :
    (∀ (db : DB) (user_id : Nat) (goal : String) (hour : Nat) (now : Int),
      get_current_state db user_id goal hour now
        = Except.error (classAttrError "Task" "user_id"))
    ∧ (∀ goal : String, infer_task_category goal = specCategoryScan goal)
    ∧ (∀ goal : String,
        infer_task_category goal ∈ ["work", "study", "personal", "health", "general"]) := by
  refine ⟨fun db user_id goal hour now => rfl, ?_, ?_⟩
  · intro goal
    cases h1 : occursInStr "work" (toLowerStr goal) <;>
    cases h2 : occursInStr "study" (toLowerStr goal) <;>
    cases h3 : occursInStr "personal" (toLowerStr goal) <;>
    cases h4 : occursInStr "exercise" (toLowerStr goal) <;>
      simp [infer_task_category, specCategoryScan, specKeywordPriority, List.find?,
        h1, h2, h3, h4]
  · intro goal
    cases h1 : occursInStr "work" (toLowerStr goal) <;>
    cases h2 : occursInStr "study" (toLowerStr goal) <;>
    cases h3 : occursInStr "personal" (toLowerStr goal) <;>
    cases h4 : occursInStr "exercise" (toLowerStr goal) <;>
      simp [infer_task_category, h1, h2, h3, h4]

/-- C10 counterexample: session 42 matches no row, so the reward is 0.0
as claimed — but with the pending proposal (`sWork`, `aDetailed`) set,
`process_feedback` raises `AttributeError` inside the current-state
re-encoding and performs no Q-value update at all, instead of updating
with the 0.0 reward. -/
theorem C10_counterexample :
    calculate_reward dbEmpty 42 5 = Except.ok 0
    ∧ hPending.last_state = some sWork
    ∧ hPending.last_action = some aDetailed
    ∧ process_feedback hPending dbEmpty 1 42 5 10 0
        = Except.error (classAttrError "Task" "user_id") :=
  ⟨rfl, rfl, rfl, rfl⟩

/-- C10 (amended): when `session_id` matches no stored session row,
`calculate_reward` returns exactly 0.0 for every rating, without raising;
but the feedback pipeline does not then perform a Q-value update — with a
pending proposal set, `process_feedback` raises `AttributeError` inside
`get_current_state` (the look-ahead state re-encoding) before
`update_q_value` is reached, and the exception propagates to the
caller. -/
theorem C10_missing_session_reward_zero (db : DB) (session_id : Nat) (rating : Int)
    (h : EnhancedRLHandler) (ls : RLState) (la : RLAction) (user_id : Nat)
    (hour : Nat) (now : Int)
    (hfind : db.tasks.find? (fun t => t.id == session_id) = none)
    (hls : h.last_state = some ls) (hla : h.last_action = some la) :
    calculate_reward db session_id rating = Except.ok 0
    ∧ process_feedback h db user_id session_id rating hour now
        = Except.error (classAttrError "Task" "user_id") := by
  have hr : calculate_reward db session_id rating = Except.ok 0 := by
    unfold calculate_reward
    rw [hfind]
  refine ⟨hr, ?_⟩
  unfold process_feedback
  rw [hls, hla, hr]
  rfl

/-- C10 witness: a pending proposal, an empty database and session 42. -/
theorem C10_witness :
    calculate_reward dbEmpty 42 5 = Except.ok 0
    ∧ process_feedback hPending dbEmpty 1 42 5 10 0
        = Except.error (classAttrError "Task" "user_id") :=
  C10_missing_session_reward_zero dbEmpty 42 5 hPending sWork aDetailed 1 10 0 rfl rfl rfl

end Klarita
